import Mathlib

/-!
Verification of the OCPP 2.0.1 simulator repository (python-ocpp variants).

The definitions below are a shallow embedding of the Python sources:

* charge_point.py        : ChargePointEmulator (connector and transaction state,
                           RequestStartTransaction and RequestStopTransaction handlers,
                           the metering simulation tick)
* simple_csms.py         : SimpleCSMS (frame decoding, message and call dispatch)
* simple_charge_point.py : send_message_with_retry (the retry loop on the test client)
* charging_simulator.py  : ChargingStationSimulator.transaction_event (the
                           TransactionEvent payload builder)

Python dictionaries are modelled as association lists, floats as rationals,
raised exceptions as an explicit error type, and the fire-and-forget
asyncio.create_task notification sends as an emitted event list returned next
to the mutated state.
-/

namespace OcppGw

/-- Exceptions a handler body can raise; mirrors the Python exception kinds that
the embedded code paths can actually hit. -/
inductive PyError
  | keyError
  | attributeError
  | typeError
  | indexError
  deriving DecidableEq, Repr

deriving instance DecidableEq for Except

-- String values of ocpp.v201.enums.ConnectorStatus (a Python str enum).
-- OCPP 2.0.1 defines exactly these five connector status values; there is no
-- Charging value in this enumeration.
namespace ConnectorStatus

def available : String := "Available"

def occupied : String := "Occupied"

def reserved : String := "Reserved"

def unavailable : String := "Unavailable"

def faulted : String := "Faulted"

end ConnectorStatus

-- String values of ocpp.v201.enums.RequestStartStopStatus.
namespace RequestStartStopStatus

def accepted : String := "Accepted"

def rejected : String := "Rejected"

end RequestStartStopStatus

/-- One entry of ChargePointEmulator.connectors: the Python dict
picks status and transaction_id keys. -/
structure Connector where
  status : String
  transaction_id : Option String
  deriving DecidableEq, Repr

/-- One entry of ChargePointEmulator.transactions: the dict literal built in
on_request_start_transaction, later mutated in on_request_stop_transaction.
The Python id_token payload dict is kept opaque as a string token. -/
structure TransactionRec where
  connector_id : Nat
  id_token : String
  start_time : String
  meter_start : ℚ
  stop_time : Option String
  meter_stop : Option ℚ
  deriving DecidableEq, Repr

/-- The charge point emulator state: the three dicts of ChargePointEmulator
(keyed connectors, transactions, meter_values), as association lists. -/
structure CPState where
  connectors : List (Nat × Connector)
  transactions : List (String × TransactionRec)
  meter_values : List (Nat × ℚ)
  deriving DecidableEq, Repr

/-- Python dict assignment d[k] = v: replace the binding when the key is
present, append it otherwise. -/
def assocSet {α β : Type} [BEq α] : List (α × β) → α → β → List (α × β)
  | [], k, v => [(k, v)]
  | (k0, v0) :: rest, k, v =>
      if k0 == k then (k0, v) :: rest else (k0, v0) :: assocSet rest k v

/-- ChargePointEmulator.__init__: connectors 1 and 2 Available with no
transaction, empty transactions dict, meters of both connectors at 0.0. -/
def initState : CPState :=
  { connectors :=
      [(1, { status := ConnectorStatus.available, transaction_id := none }),
       (2, { status := ConnectorStatus.available, transaction_id := none })],
    transactions := [],
    meter_values := [(1, 0), (2, 0)] }

/-- ocpp.v201.enums.TransactionEvent values used by the emulator. -/
inductive TxEventType
  | started
  | updated
  | ended
  deriving DecidableEq, Repr

/-- Notification sends that a handler or the metering loop schedules with
asyncio.create_task / awaits on the shared connection. -/
inductive Event
  | transactionEvent (t : TxEventType) (transaction_id : String) (connector_id : Nat)
  | meterValues (connector_id : Nat)
  deriving DecidableEq, Repr

/-- The RequestStartTransactionResponse fields the handler fills in:
status, and transaction_id (None on the rejected path). -/
structure StartResult where
  status : String
  transaction_id : Option String
  deriving DecidableEq, Repr

/-- ChargePointEmulator.on_request_start_transaction.  The handler reads
connectors[connector_id] (KeyError when absent), rejects unless the status is
Available, otherwise allocates tx_{int(time.time())}_{connector_id}, sets the
connector transaction_id and status (now Occupied), builds the
transaction record with meter_start := meter_values[connector_id] (KeyError
read occurring after the connector mutation), schedules the Started
TransactionEvent and answers Accepted with the transaction id.  now is
int(time.time()); nowIso is datetime.utcnow().isoformat(). -/
def on_request_start_transaction (id_token : String) (connector_id : Nat)
    (now : Nat) (nowIso : String) (s : CPState) :
    Except PyError StartResult × List Event × CPState :=
  match s.connectors.lookup connector_id with
  | none => (.error PyError.keyError, [], s)
  | some c =>
      if c.status ≠ ConnectorStatus.available then
        (.ok { status := RequestStartStopStatus.rejected, transaction_id := none }, [], s)
      else
        let tx := "tx_" ++ toString now ++ "_" ++ toString connector_id
        let c1 : Connector := { status := ConnectorStatus.occupied, transaction_id := some tx }
        let s1 : CPState := { s with connectors := assocSet s.connectors connector_id c1 }
        match s.meter_values.lookup connector_id with
        | none => (.error PyError.keyError, [], s1)
        | some m =>
            let tr : TransactionRec :=
              { connector_id := connector_id, id_token := id_token,
                start_time := nowIso, meter_start := m,
                stop_time := none, meter_stop := none }
            let s2 : CPState := { s1 with transactions := assocSet s1.transactions tx tr }
            (.ok { status := RequestStartStopStatus.accepted, transaction_id := some tx },
             [Event.transactionEvent TxEventType.started tx connector_id], s2)

/-- ChargePointEmulator.on_request_stop_transaction.  Rejects when the id is
absent from the transactions dict; otherwise clears the recorded connector
(transaction_id cleared to None, status set to Available), stamps stop_time, sets
meter_stop := meter_values[connector_id] and schedules the Ended
TransactionEvent.  Ended transactions are never removed from the dict. -/
def on_request_stop_transaction (transaction_id : String) (nowIso : String)
    (s : CPState) : Except PyError String × List Event × CPState :=
  match s.transactions.lookup transaction_id with
  | none => (.ok RequestStartStopStatus.rejected, [], s)
  | some tr =>
      match s.connectors.lookup tr.connector_id with
      | none => (.error PyError.keyError, [], s)
      | some _ =>
          let c1 : Connector := { status := ConnectorStatus.available, transaction_id := none }
          let s1 : CPState := { s with connectors := assocSet s.connectors tr.connector_id c1 }
          let tr1 : TransactionRec := { tr with stop_time := some nowIso }
          let s2 : CPState := { s1 with transactions := assocSet s1.transactions transaction_id tr1 }
          match s.meter_values.lookup tr.connector_id with
          | none => (.error PyError.keyError, [], s2)
          | some m =>
              let tr2 : TransactionRec := { tr with stop_time := some nowIso, meter_stop := some m }
              let s3 : CPState := { s2 with transactions := assocSet s2.transactions transaction_id tr2 }
              (.ok RequestStartStopStatus.accepted,
               [Event.transactionEvent TxEventType.ended transaction_id tr.connector_id], s3)

/-- Python truthiness of the transaction_id slot: None and the empty string
are falsy, every other string truthy. -/
def pyTruthy : Option String → Bool
  | none => false
  | some t => !(t == "")

/-- One connector step of one iteration of _simulate_charging: read
connectors[connector_id] (KeyError when absent), and when its transaction_id
is truthy add the random.uniform(0.1, 0.5) delta to
meter_values[connector_id] and send MeterValues. -/
def tickConnector (d : ℚ) (connector_id : Nat) (s : CPState) :
    Except PyError (List Event × CPState) :=
  match s.connectors.lookup connector_id with
  | none => .error PyError.keyError
  | some c =>
      if pyTruthy c.transaction_id then
        match s.meter_values.lookup connector_id with
        | none => .error PyError.keyError
        | some m =>
            .ok ([Event.meterValues connector_id],
                 { s with meter_values := assocSet s.meter_values connector_id (m + d) })
      else .ok ([], s)

/-- One iteration of the _simulate_charging while-loop body: the for-loop over
connector ids [1, 2]; an exception inside the loop is caught by the
surrounding try and abandons the rest of the iteration, keeping the state
mutated so far.  d1 and d2 are the two uniform(0.1, 0.5) draws. -/
def simulate_charging_tick (d1 d2 : ℚ) (s : CPState) : List Event × CPState :=
  match tickConnector d1 1 s with
  | .error _ => ([], s)
  | .ok (ev1, s1) =>
      match tickConnector d2 2 s1 with
      | .error _ => (ev1, s1)
      | .ok (ev2, s2) => (ev1 ++ ev2, s2)

/-- The operations that drive a ChargePointEmulator over its lifetime. -/
inductive Op
  | start (id_token : String) (connector_id : Nat) (now : Nat) (nowIso : String)
  | stop (transaction_id : String) (nowIso : String)
  | tick (d1 d2 : ℚ)
  deriving DecidableEq, Repr

/-- State reached after one operation (the handlers mutate self in place;
exceptions propagate to python-ocpp / the metering loop, which answer an error
frame or log and continue with whatever state the body left behind). -/
def applyOp (s : CPState) : Op → CPState
  | Op.start tok cid now nowIso => (on_request_start_transaction tok cid now nowIso s).2.2
  | Op.stop tid nowIso => (on_request_stop_transaction tid nowIso s).2.2
  | Op.tick d1 d2 => (simulate_charging_tick d1 d2 s).2

/-- random.uniform(0.1, 0.5) lies in the closed interval [1/10, 1/2]. -/
def validDelta (d : ℚ) : Bool := decide (mkRat 1 10 ≤ d) && decide (d ≤ mkRat 1 2)

/-- Environment constraint on one operation: metering deltas come from
random.uniform(0.1, 0.5); start and stop inputs are unconstrained. -/
def validOp : Op → Bool
  | Op.tick d1 d2 => validDelta d1 && validDelta d2
  | _ => true

def run (ops : List Op) : CPState := ops.foldl applyOp initState

/-- States the emulator can be in: reached from __init__ by handler calls and
metering ticks whose deltas obey the uniform(0.1, 0.5) bound. -/
def Reachable (s : CPState) : Prop :=
  ∃ ops : List Op, (∀ op ∈ ops, validOp op = true) ∧ run ops = s

/-- The energy counter of a connector (0 when the key is absent). -/
def meterOf (s : CPState) (connector_id : Nat) : ℚ :=
  (s.meter_values.lookup connector_id).getD 0

/-- The status string of a connector, when present. -/
def statusOf (s : CPState) (connector_id : Nat) : Option String :=
  (s.connectors.lookup connector_id).map Connector.status

/-- The condition the metering loop tests for a connector: a truthy
transaction_id slot. -/
def chargingFlag (s : CPState) (connector_id : Nat) : Bool :=
  match s.connectors.lookup connector_id with
  | some c => pyTruthy c.transaction_id
  | none => false

theorem lookup_assocSet_eq {α β : Type} [BEq α] [LawfulBEq α]
    (l : List (α × β)) (k : α) (v : β) : (assocSet l k v).lookup k = some v := by
  induction l with
  | nil => simp [assocSet, List.lookup]
  | cons p rest ih =>
      obtain ⟨k0, v0⟩ := p
      by_cases h : k0 == k
      · simp [assocSet, h, List.lookup, eq_of_beq h]
      · simp only [assocSet, h, if_neg, Bool.false_eq_true, not_false_iff, ite_false,
          List.lookup]
        have hk : (k == k0) = false :=
          beq_false_of_ne (fun hh => h (beq_of_eq hh.symm))
        simp [hk, ih]

theorem lookup_assocSet_ne {α β : Type} [BEq α] [LawfulBEq α]
    (l : List (α × β)) (k k2 : α) (v : β) (h : k2 ≠ k) :
    (assocSet l k v).lookup k2 = l.lookup k2 := by
  induction l with
  | nil => simp [assocSet, List.lookup, beq_false_of_ne h]
  | cons p rest ih =>
      obtain ⟨k0, v0⟩ := p
      by_cases h0 : k0 == k
      · have : k2 ≠ k0 := fun hh => h (hh ▸ eq_of_beq h0)
        simp [assocSet, h0, List.lookup, beq_false_of_ne this]
      · simp only [assocSet, h0, Bool.false_eq_true, not_false_iff, ite_false, List.lookup]
        by_cases h2 : k2 == k0
        · simp [h2]
        · simp only [h2]
          exact ih

theorem lookup_two_keys {β : Type} {c1 c2 : β} {k : Nat} {v : β}
    (h : List.lookup k [(1, c1), (2, c2)] = some v) :
    (k = 1 ∧ v = c1) ∨ (k = 2 ∧ v = c2) := by
  by_cases h1 : k = 1
  · subst h1; simp [List.lookup] at h; exact Or.inl ⟨rfl, h.symm⟩
  · by_cases h2 : k = 2
    · subst h2; simp [List.lookup] at h; exact Or.inr ⟨rfl, h.symm⟩
    · simp [List.lookup, beq_false_of_ne h1, beq_false_of_ne h2] at h

theorem assocSet_two_one {β : Type} (c1 c2 v : β) :
    assocSet [(1, c1), (2, c2)] 1 v = [(1, v), (2, c2)] := rfl

theorem assocSet_two_two {β : Type} (c1 c2 v : β) :
    assocSet [(1, c1), (2, c2)] 2 v = [(1, c1), (2, v)] := rfl

/-- Structural invariant of the emulator state: the connectors and
meter_values dicts keep exactly the keys 1 and 2 set up by __init__, every
transaction record points at one of those connectors, and its meter_start is
at most the current energy counter of that connector. -/
structure Inv (s : CPState) : Prop where
  conns : ∃ c1 c2, s.connectors = [(1, c1), (2, c2)]
  mets : ∃ m1 m2, s.meter_values = [(1, m1), (2, m2)]
  txs : ∀ tid tr, s.transactions.lookup tid = some tr →
    (tr.connector_id = 1 ∨ tr.connector_id = 2) ∧
    tr.meter_start ≤ meterOf s tr.connector_id

theorem inv_init : Inv initState := by
  refine ⟨⟨_, _, rfl⟩, ⟨_, _, rfl⟩, ?_⟩
  intro tid tr h
  simp [initState, List.lookup] at h

theorem validDelta_pos {d : ℚ} (h : validDelta d = true) : 0 < d := by
  have h1 : mkRat 1 10 ≤ d := by
    simp only [validDelta, Bool.and_eq_true, decide_eq_true_eq] at h
    exact h.1
  have h0 : (0 : ℚ) < mkRat 1 10 := by decide
  exact lt_of_lt_of_le h0 h1

theorem assocSet_assocSet {α β : Type} [BEq α] [LawfulBEq α] (l : List (α × β)) (k : α) (a b : β) :
    assocSet (assocSet l k a) k b = assocSet l k b := by
  induction l with
  | nil => simp [assocSet]
  | cons p rest ih =>
      obtain ⟨k0, v0⟩ := p
      by_cases h : k0 == k
      · simp [assocSet, h]
      · simp [assocSet, h, ih]

/-- The transaction identifier allocated by on_request_start_transaction. -/
def txId (now : Nat) (connector_id : Nat) : String :=
  "tx_" ++ toString now ++ "_" ++ toString connector_id

theorem start_lookup_none_spec {s : CPState} {cid : Nat} (tok : String) (now : Nat)
    (nowIso : String) (hc : s.connectors.lookup cid = none) :
    on_request_start_transaction tok cid now nowIso s = (.error PyError.keyError, [], s) := by
  unfold on_request_start_transaction
  rw [hc]

theorem start_reject_spec {s : CPState} {cid : Nat} {c : Connector} (tok : String)
    (now : Nat) (nowIso : String) (hc : s.connectors.lookup cid = some c)
    (hA : c.status ≠ ConnectorStatus.available) :
    on_request_start_transaction tok cid now nowIso s =
      (.ok { status := RequestStartStopStatus.rejected, transaction_id := none }, [], s) := by
  unfold on_request_start_transaction
  rw [hc]
  simp [hA]

theorem start_accept_spec {s : CPState} {cid : Nat} {c : Connector} {m : ℚ} (tok : String)
    (now : Nat) (nowIso : String) (hc : s.connectors.lookup cid = some c)
    (hA : c.status = ConnectorStatus.available) (hm : s.meter_values.lookup cid = some m) :
    on_request_start_transaction tok cid now nowIso s =
      (.ok { status := RequestStartStopStatus.accepted, transaction_id := some (txId now cid) },
       [Event.transactionEvent TxEventType.started (txId now cid) cid],
       { s with
           connectors := assocSet s.connectors cid
             { status := ConnectorStatus.occupied, transaction_id := some (txId now cid) },
           transactions := assocSet s.transactions (txId now cid)
             { connector_id := cid, id_token := tok, start_time := nowIso,
               meter_start := m, stop_time := none, meter_stop := none } }) := by
  unfold on_request_start_transaction
  rw [hc]
  simp only [hA, ne_eq, not_true_eq_false, ite_false, if_neg]
  rw [hm]
  rfl

theorem stop_none_spec {s : CPState} {tid : String} (nowIso : String)
    (ht : s.transactions.lookup tid = none) :
    on_request_stop_transaction tid nowIso s =
      (.ok RequestStartStopStatus.rejected, [], s) := by
  unfold on_request_stop_transaction
  rw [ht]

theorem stop_accept_spec {s : CPState} {tid : String} {tr : TransactionRec} {c : Connector}
    {m : ℚ} (nowIso : String) (ht : s.transactions.lookup tid = some tr)
    (hc : s.connectors.lookup tr.connector_id = some c)
    (hm : s.meter_values.lookup tr.connector_id = some m) :
    on_request_stop_transaction tid nowIso s =
      (.ok RequestStartStopStatus.accepted,
       [Event.transactionEvent TxEventType.ended tid tr.connector_id],
       { s with
           connectors := assocSet s.connectors tr.connector_id
             { status := ConnectorStatus.available, transaction_id := none },
           transactions := assocSet s.transactions tid
             { tr with stop_time := some nowIso, meter_stop := some m } }) := by
  unfold on_request_stop_transaction
  simp only [ht, hc, hm, assocSet_assocSet]

theorem tickConnector_spec {s : CPState} {cid : Nat} {c : Connector} {m : ℚ} (d : ℚ)
    (hc : s.connectors.lookup cid = some c) (hm : s.meter_values.lookup cid = some m) :
    tickConnector d cid s =
      (if pyTruthy c.transaction_id then
        .ok ([Event.meterValues cid],
             { s with meter_values := assocSet s.meter_values cid (m + d) })
      else .ok ([], s)) := by
  unfold tickConnector
  rw [hc]
  by_cases ht : pyTruthy c.transaction_id
  · simp only [ht, ite_true]
    rw [hm]
  · simp [ht]

theorem simulate_charging_tick_spec {s : CPState} {c1 c2 : Connector} {m1 m2 : ℚ}
    (hconn : s.connectors = [(1, c1), (2, c2)])
    (hmet : s.meter_values = [(1, m1), (2, m2)]) (d1 d2 : ℚ) :
    (simulate_charging_tick d1 d2 s).2 =
      { s with meter_values :=
          [(1, if pyTruthy c1.transaction_id then m1 + d1 else m1),
           (2, if pyTruthy c2.transaction_id then m2 + d2 else m2)] } := by
  have hc1 : s.connectors.lookup 1 = some c1 := by rw [hconn]; rfl
  have hm1 : s.meter_values.lookup 1 = some m1 := by rw [hmet]; rfl
  have hc2 : s.connectors.lookup 2 = some c2 := by rw [hconn]; rfl
  have hm2 : s.meter_values.lookup 2 = some m2 := by rw [hmet]; rfl
  have e1 := tickConnector_spec d1 hc1 hm1
  by_cases t1 : pyTruthy c1.transaction_id
  · rw [if_pos t1] at e1
    have hc2b : ({ s with meter_values := assocSet s.meter_values 1 (m1 + d1) } :
        CPState).connectors.lookup 2 = some c2 := hc2
    have hm2b : ({ s with meter_values := assocSet s.meter_values 1 (m1 + d1) } :
        CPState).meter_values.lookup 2 = some m2 := by
      show (assocSet s.meter_values 1 (m1 + d1)).lookup 2 = some m2
      rw [hmet]; rfl
    have e2 := tickConnector_spec d2 hc2b hm2b
    by_cases t2 : pyTruthy c2.transaction_id
    · rw [if_pos t2] at e2
      unfold simulate_charging_tick
      rw [e1]
      dsimp only
      rw [e2]
      dsimp only
      rw [if_pos t1, if_pos t2, hmet]
      rfl
    · rw [if_neg t2] at e2
      unfold simulate_charging_tick
      rw [e1]
      dsimp only
      rw [e2]
      dsimp only
      rw [if_pos t1, if_neg t2, hmet]
      rfl
  · rw [if_neg t1] at e1
    have e2 := tickConnector_spec d2 hc2 hm2
    by_cases t2 : pyTruthy c2.transaction_id
    · rw [if_pos t2] at e2
      unfold simulate_charging_tick
      rw [e1]
      dsimp only
      rw [e2]
      dsimp only
      rw [if_neg t1, if_pos t2, hmet]
      rfl
    · rw [if_neg t2] at e2
      unfold simulate_charging_tick
      rw [e1]
      dsimp only
      rw [e2]
      dsimp only
      rw [if_neg t1, if_neg t2, ← hmet]

theorem inv_applyOp {s : CPState} (hs : Inv s) {op : Op} (hop : validOp op = true) :
    Inv (applyOp s op) := by
  obtain ⟨c1, c2, hconn⟩ := hs.conns
  obtain ⟨m1, m2, hmet⟩ := hs.mets
  cases op with
  | start tok cid now nowIso =>
      cases hc : s.connectors.lookup cid with
      | none =>
          simp only [applyOp, start_lookup_none_spec tok now nowIso hc]
          exact hs
      | some c =>
          by_cases hA : c.status = ConnectorStatus.available
          · have hcid : cid = 1 ∨ cid = 2 := by
              have hcl : List.lookup cid [(1, c1), (2, c2)] = some c := by
                rw [← hconn]; exact hc
              rcases lookup_two_keys hcl with ⟨h1, _⟩ | ⟨h2, _⟩
              · exact Or.inl h1
              · exact Or.inr h2
            have hm : ∃ m, s.meter_values.lookup cid = some m := by
              rcases hcid with h | h <;> subst h
              · exact ⟨m1, by rw [hmet]; rfl⟩
              · exact ⟨m2, by rw [hmet]; rfl⟩
            obtain ⟨m, hm⟩ := hm
            simp only [applyOp, start_accept_spec tok now nowIso hc hA hm]
            refine ⟨?_, ⟨m1, m2, hmet⟩, ?_⟩
            · rcases hcid with h | h <;> subst h <;> rw [hconn]
              · exact ⟨_, c2, rfl⟩
              · exact ⟨c1, _, rfl⟩
            · intro tid tr htr
              by_cases htid : tid = txId now cid
              · subst htid
                rw [lookup_assocSet_eq] at htr
                injection htr with h
                subst h
                refine ⟨hcid, ?_⟩
                simp [meterOf, hm]
              · rw [lookup_assocSet_ne _ _ _ _ htid] at htr
                obtain ⟨hk, hle⟩ := hs.txs tid tr htr
                exact ⟨hk, by simpa [meterOf] using hle⟩
          · simp only [applyOp, start_reject_spec tok now nowIso hc hA]
            exact hs
  | stop tid nowIso =>
      cases ht : s.transactions.lookup tid with
      | none =>
          simp only [applyOp, stop_none_spec nowIso ht]
          exact hs
      | some tr =>
          obtain ⟨hk, hle⟩ := hs.txs tid tr ht
          have hcex : ∃ c, s.connectors.lookup tr.connector_id = some c := by
            rcases hk with h | h <;> rw [h, hconn]
            · exact ⟨c1, rfl⟩
            · exact ⟨c2, rfl⟩
          obtain ⟨c, hc⟩ := hcex
          have hmex : ∃ m, s.meter_values.lookup tr.connector_id = some m := by
            rcases hk with h | h <;> rw [h, hmet]
            · exact ⟨m1, rfl⟩
            · exact ⟨m2, rfl⟩
          obtain ⟨m, hm⟩ := hmex
          simp only [applyOp, stop_accept_spec nowIso ht hc hm]
          refine ⟨?_, ⟨m1, m2, hmet⟩, ?_⟩
          · rcases hk with h | h <;> rw [h, hconn]
            · exact ⟨_, c2, rfl⟩
            · exact ⟨c1, _, rfl⟩
          · intro tid2 tr2 htr2
            by_cases htid : tid2 = tid
            · subst htid
              rw [lookup_assocSet_eq] at htr2
              injection htr2 with h
              subst h
              refine ⟨hk, ?_⟩
              simpa [meterOf] using hle
            · rw [lookup_assocSet_ne _ _ _ _ htid] at htr2
              obtain ⟨hk2, hle2⟩ := hs.txs tid2 tr2 htr2
              exact ⟨hk2, by simpa [meterOf] using hle2⟩
  | tick d1 d2 =>
      have hv : validDelta d1 = true ∧ validDelta d2 = true := by
        simpa [validOp] using hop
      have hd1 : 0 ≤ d1 := le_of_lt (validDelta_pos hv.1)
      have hd2 : 0 ≤ d2 := le_of_lt (validDelta_pos hv.2)
      have hstep := simulate_charging_tick_spec hconn hmet d1 d2
      simp only [applyOp, hstep]
      refine ⟨⟨c1, c2, hconn⟩, ⟨_, _, rfl⟩, ?_⟩
      intro tid tr htr
      obtain ⟨hk, hle⟩ := hs.txs tid tr htr
      refine ⟨hk, ?_⟩
      have hm1 : meterOf s 1 = m1 := by simp [meterOf, hmet, List.lookup]
      have hm2 : meterOf s 2 = m2 := by simp [meterOf, hmet, List.lookup]
      rcases hk with h | h <;> rw [h] <;> rw [h] at hle
      · rw [hm1] at hle
        by_cases t1 : pyTruthy c1.transaction_id
        · simp only [meterOf, t1, ite_true, List.lookup]
          simp only [show ((1 : Nat) == 1) = true from rfl]
          simp only [Option.getD_some]
          linarith
        · simp only [meterOf, t1, ite_false, List.lookup, Bool.false_eq_true]
          simp only [show ((1 : Nat) == 1) = true from rfl]
          simp only [Option.getD_some]
          linarith
      · rw [hm2] at hle
        by_cases t2 : pyTruthy c2.transaction_id
        · simp only [meterOf, t2, ite_true, List.lookup]
          simp only [show ((2 : Nat) == 1) = false from rfl, show ((2 : Nat) == 2) = true from rfl]
          simp only [Option.getD_some]
          linarith
        · simp only [meterOf, t2, ite_false, List.lookup, Bool.false_eq_true]
          simp only [show ((2 : Nat) == 1) = false from rfl, show ((2 : Nat) == 2) = true from rfl]
          simp only [Option.getD_some]
          linarith

theorem inv_foldl (ops : List Op) : ∀ s : CPState, Inv s →
    (∀ op ∈ ops, validOp op = true) → Inv (ops.foldl applyOp s) := by
  induction ops with
  | nil => intro s hs _; simpa using hs
  | cons op rest ih =>
      intro s hs hops
      simp only [List.foldl_cons]
      exact ih _ (inv_applyOp hs (hops op (List.mem_cons_self op rest)))
        (fun op2 h2 => hops op2 (List.mem_cons_of_mem op h2))

theorem inv_run (ops : List Op) (hops : ∀ op ∈ ops, validOp op = true) : Inv (run ops) :=
  inv_foldl ops initState inv_init hops

theorem inv_reachable {s : CPState} (hs : Reachable s) : Inv s := by
  obtain ⟨ops, hops, hrun⟩ := hs
  exact hrun ▸ inv_run ops hops

/-- Scenario B state: RequestStartTransaction with token T1 on connector 1 of
the freshly initialised emulator (time.time() read as 0). -/
def stateB : CPState := run [Op.start "T1" 1 0 "t0"]

/-- Scenario D state: the scenario B transaction tx_0_1 stopped again. -/
def stateD : CPState := run [Op.start "T1" 1 0 "t0", Op.stop "tx_0_1" "t1"]

/-- C1 (amended): an accepted RequestStartTransaction (connector present with
status Available) allocates the identifier tx_{now}_{cid}, answers Accepted
carrying that identifier, sets the connector status to Occupied (the OCPP
2.0.1 value the code uses; there is no Charging connector status) with the
new transaction id, records meter_start equal to the connector current energy
counter, schedules TransactionEvent(Started), and leaves the meters
unchanged. -/
theorem C1_request_start_accepted_effects (s : CPState) (c : Connector) (m : ℚ)
    (tok : String) (cid now : Nat) (nowIso : String)
    (hc : s.connectors.lookup cid = some c)
    (hA : c.status = ConnectorStatus.available)
    (hm : s.meter_values.lookup cid = some m) :
    (on_request_start_transaction tok cid now nowIso s).1 =
        Except.ok { status := RequestStartStopStatus.accepted,
                    transaction_id := some (txId now cid) } ∧
    (on_request_start_transaction tok cid now nowIso s).2.2.connectors.lookup cid =
        some { status := ConnectorStatus.occupied, transaction_id := some (txId now cid) } ∧
    (on_request_start_transaction tok cid now nowIso s).2.2.transactions.lookup (txId now cid) =
        some { connector_id := cid, id_token := tok, start_time := nowIso,
               meter_start := m, stop_time := none, meter_stop := none } ∧
    (on_request_start_transaction tok cid now nowIso s).2.1 =
        [Event.transactionEvent TxEventType.started (txId now cid) cid] ∧
    (on_request_start_transaction tok cid now nowIso s).2.2.meter_values = s.meter_values := by
  rw [start_accept_spec tok now nowIso hc hA hm]
  exact ⟨rfl, lookup_assocSet_eq _ _ _, lookup_assocSet_eq _ _ _, rfl, rfl⟩

/-- C1 witness: the amended theorem evaluated on connector 1 of the initial
state. -/
theorem C1_request_start_accepted_effects_witness :
    initState.connectors.lookup 1 =
        some { status := ConnectorStatus.available, transaction_id := none } ∧
    ConnectorStatus.available = ConnectorStatus.available ∧
    initState.meter_values.lookup 1 = some 0 ∧
    (on_request_start_transaction "T1" 1 0 "t0" initState).1 =
        Except.ok { status := RequestStartStopStatus.accepted,
                    transaction_id := some (txId 0 1) } :=
  ⟨by decide, rfl, by decide,
   (C1_request_start_accepted_effects initState
     { status := ConnectorStatus.available, transaction_id := none } 0 "T1" 1 0 "t0"
     (by decide) rfl (by decide)).1⟩

/-- C1 counterexample: the claim as stated says an accepted start sets the
connector status to Charging; on the initial state the start of connector 1
is accepted, yet the resulting status is the string Occupied, which is not
Charging. -/
theorem C1_status_not_charging_counterexample :
    (on_request_start_transaction "T1" 1 0 "t0" initState).1 =
        Except.ok { status := RequestStartStopStatus.accepted,
                    transaction_id := some "tx_0_1" } ∧
    statusOf (on_request_start_transaction "T1" 1 0 "t0" initState).2.2 1 =
        some ConnectorStatus.occupied ∧
    statusOf (on_request_start_transaction "T1" 1 0 "t0" initState).2.2 1 ≠
        some "Charging" :=
  ⟨by decide, by decide, by decide⟩

/-- C4: RequestStartTransaction on a connector whose status is not Available
answers Rejected with no transaction id, emits nothing, and returns the state
completely unchanged (connector status, transaction ids, meters and the
transactions dict included). -/
theorem C4_request_start_rejected_state_unchanged (s : CPState) (c : Connector)
    (tok : String) (cid now : Nat) (nowIso : String)
    (hc : s.connectors.lookup cid = some c)
    (hNA : c.status ≠ ConnectorStatus.available) :
    on_request_start_transaction tok cid now nowIso s =
      (Except.ok { status := RequestStartStopStatus.rejected, transaction_id := none },
       [], s) :=
  start_reject_spec tok now nowIso hc hNA

/-- C4 witness: repeating the scenario B start while connector 1 is Occupied
is rejected and leaves the state untouched. -/
theorem C4_request_start_rejected_state_unchanged_witness :
    stateB.connectors.lookup 1 =
        some { status := ConnectorStatus.occupied, transaction_id := some "tx_0_1" } ∧
    ConnectorStatus.occupied ≠ ConnectorStatus.available ∧
    on_request_start_transaction "T1" 1 5 "t5" stateB =
      (Except.ok { status := RequestStartStopStatus.rejected, transaction_id := none },
       [], stateB) :=
  ⟨by decide, by decide,
   C4_request_start_rejected_state_unchanged stateB
     { status := ConnectorStatus.occupied, transaction_id := some "tx_0_1" }
     "T1" 1 5 "t5" (by decide) (by decide)⟩

/-- C2 (amended): RequestStopTransaction answers Rejected exactly when the
given identifier is absent from the transactions dict, i.e. was never
started.  Ended transactions are never removed from that dict, so a stop
naming an already ended transaction is Accepted again, not Rejected. -/
theorem C2_stop_rejected_iff_never_started (s : CPState) (hs : Reachable s)
    (tid : String) (nowIso : String) :
    (on_request_stop_transaction tid nowIso s).1 =
        Except.ok RequestStartStopStatus.rejected ↔
      s.transactions.lookup tid = none := by
  constructor
  · intro h
    cases ht : s.transactions.lookup tid with
    | none => rfl
    | some tr =>
        have hinv := inv_reachable hs
        obtain ⟨c1, c2, hconn⟩ := hinv.conns
        obtain ⟨m1, m2, hmet⟩ := hinv.mets
        obtain ⟨hk, _⟩ := hinv.txs tid tr ht
        have hcex : ∃ c, s.connectors.lookup tr.connector_id = some c := by
          rcases hk with h2 | h2 <;> rw [h2, hconn]
          · exact ⟨c1, rfl⟩
          · exact ⟨c2, rfl⟩
        obtain ⟨c, hc⟩ := hcex
        have hmex : ∃ m, s.meter_values.lookup tr.connector_id = some m := by
          rcases hk with h2 | h2 <;> rw [h2, hmet]
          · exact ⟨m1, rfl⟩
          · exact ⟨m2, rfl⟩
        obtain ⟨m, hm⟩ := hmex
        rw [stop_accept_spec nowIso ht hc hm] at h
        have h2 : (Except.ok RequestStartStopStatus.accepted : Except PyError String) =
            Except.ok RequestStartStopStatus.rejected := h
        exact absurd h2 (by decide)
  · intro h
    rw [stop_none_spec nowIso h]

/-- C2 witness: the amended theorem evaluated on the scenario D state with an
identifier that was never started. -/
theorem C2_stop_rejected_iff_never_started_witness :
    Reachable stateD ∧
    ((on_request_stop_transaction "tx_unknown" "t9" stateD).1 =
        Except.ok RequestStartStopStatus.rejected ↔
      stateD.transactions.lookup "tx_unknown" = none) :=
  ⟨⟨[Op.start "T1" 1 0 "t0", Op.stop "tx_0_1" "t1"], by decide, rfl⟩,
   C2_stop_rejected_iff_never_started stateD
     ⟨[Op.start "T1" 1 0 "t0", Op.stop "tx_0_1" "t1"], by decide, rfl⟩
     "tx_unknown" "t9"⟩

/-- C2 counterexample: in the scenario D state the transaction tx_0_1 has
ended (its stop_time is stamped and no connector holds it as its active
transaction), yet a RequestStopTransaction naming it is Accepted, where the
claim requires Rejected. -/
theorem C2_stop_ended_transaction_accepted_counterexample :
    (stateD.transactions.lookup "tx_0_1").map TransactionRec.stop_time =
        some (some "t1") ∧
    (stateD.connectors.lookup 1).map Connector.transaction_id = some none ∧
    (stateD.connectors.lookup 2).map Connector.transaction_id = some none ∧
    (on_request_stop_transaction "tx_0_1" "t2" stateD).1 =
        Except.ok RequestStartStopStatus.accepted ∧
    RequestStartStopStatus.accepted ≠ RequestStartStopStatus.rejected :=
  ⟨by decide, by decide, by decide, by decide, by decide⟩

/-- C9: an accepted RequestStopTransaction on a reachable state sets the
recorded transaction meter_stop to the current energy counter of its
connector, sets that connector status to Available, clears its
transaction_id, schedules TransactionEvent(Ended), and the record satisfies
meter_stop greater or equal meter_start. -/
theorem C9_request_stop_accepted_effects (s : CPState) (hs : Reachable s)
    (tid : String) (tr : TransactionRec) (nowIso : String)
    (ht : s.transactions.lookup tid = some tr) :
    ∃ m : ℚ, s.meter_values.lookup tr.connector_id = some m ∧
      (on_request_stop_transaction tid nowIso s).1 =
          Except.ok RequestStartStopStatus.accepted ∧
      (on_request_stop_transaction tid nowIso s).2.1 =
          [Event.transactionEvent TxEventType.ended tid tr.connector_id] ∧
      (on_request_stop_transaction tid nowIso s).2.2.connectors.lookup tr.connector_id =
          some { status := ConnectorStatus.available, transaction_id := none } ∧
      (on_request_stop_transaction tid nowIso s).2.2.transactions.lookup tid =
          some { tr with stop_time := some nowIso, meter_stop := some m } ∧
      tr.meter_start ≤ m := by
  have hinv := inv_reachable hs
  obtain ⟨c1, c2, hconn⟩ := hinv.conns
  obtain ⟨m1, m2, hmet⟩ := hinv.mets
  obtain ⟨hk, hle⟩ := hinv.txs tid tr ht
  have hcex : ∃ c, s.connectors.lookup tr.connector_id = some c := by
    rcases hk with h2 | h2 <;> rw [h2, hconn]
    · exact ⟨c1, rfl⟩
    · exact ⟨c2, rfl⟩
  obtain ⟨c, hc⟩ := hcex
  have hmex : ∃ m, s.meter_values.lookup tr.connector_id = some m := by
    rcases hk with h2 | h2 <;> rw [h2, hmet]
    · exact ⟨m1, rfl⟩
    · exact ⟨m2, rfl⟩
  obtain ⟨m, hm⟩ := hmex
  refine ⟨m, hm, ?_⟩
  rw [stop_accept_spec nowIso ht hc hm]
  refine ⟨rfl, rfl, lookup_assocSet_eq _ _ _, lookup_assocSet_eq _ _ _, ?_⟩
  simp only [meterOf, hm, Option.getD_some] at hle
  exact hle

/-- C9 witness: the theorem evaluated at scenario B (stop of tx_0_1). -/
theorem C9_request_stop_accepted_effects_witness :
    Reachable stateB ∧
    stateB.transactions.lookup "tx_0_1" =
        some { connector_id := 1, id_token := "T1", start_time := "t0",
               meter_start := 0, stop_time := none, meter_stop := none } ∧
    (∃ m : ℚ,
      stateB.meter_values.lookup
          (({ connector_id := 1, id_token := "T1", start_time := "t0",
              meter_start := 0, stop_time := none, meter_stop := none } :
            TransactionRec).connector_id) = some m ∧
      (on_request_stop_transaction "tx_0_1" "t1" stateB).1 =
          Except.ok RequestStartStopStatus.accepted ∧
      (on_request_stop_transaction "tx_0_1" "t1" stateB).2.1 =
          [Event.transactionEvent TxEventType.ended "tx_0_1" 1] ∧
      (on_request_stop_transaction "tx_0_1" "t1" stateB).2.2.connectors.lookup 1 =
          some { status := ConnectorStatus.available, transaction_id := none } ∧
      (on_request_stop_transaction "tx_0_1" "t1" stateB).2.2.transactions.lookup "tx_0_1" =
          some { connector_id := 1, id_token := "T1", start_time := "t0",
                 meter_start := 0, stop_time := some "t1", meter_stop := some m } ∧
      (0 : ℚ) ≤ m) :=
  ⟨⟨[Op.start "T1" 1 0 "t0"], by decide, rfl⟩, by decide,
   C9_request_stop_accepted_effects stateB ⟨[Op.start "T1" 1 0 "t0"], by decide, rfl⟩
     "tx_0_1"
     { connector_id := 1, id_token := "T1", start_time := "t0",
       meter_start := 0, stop_time := none, meter_stop := none }
     "t1" (by decide)⟩

/-- C10: the emulator initialises connector, meter and transaction state only
for connector ids 1 and 2, and on_request_start_transaction indexes the
connectors dict with the caller supplied connector_id unchecked, so a
RequestStartTransaction for any other connector id raises KeyError instead of
answering Rejected. -/
theorem C10_start_unknown_connector_keyerror (tok : String) (cid now : Nat)
    (nowIso : String) (h1 : cid ≠ 1) (h2 : cid ≠ 2) :
    initState.connectors =
        [(1, { status := ConnectorStatus.available, transaction_id := none }),
         (2, { status := ConnectorStatus.available, transaction_id := none })] ∧
    on_request_start_transaction tok cid now nowIso initState =
      (Except.error PyError.keyError, [], initState) := by
  refine ⟨rfl, ?_⟩
  apply start_lookup_none_spec
  simp [initState, List.lookup, beq_false_of_ne h1, beq_false_of_ne h2]

/-- C6 (amended): across one metering tick, the energy counter of each of the
two connectors increases by exactly the drawn uniform(0.1, 0.5) delta — in
particular strictly — when the connector transaction_id slot is set (the
condition _simulate_charging actually tests; the connector status is then
Occupied, never Charging, a value that does not occur in this code), and is
unchanged when the connector has no transaction. -/
theorem C6_tick_meter_updates (s : CPState) (hs : Reachable s) (d1 d2 : ℚ)
    (h1 : validDelta d1 = true) (h2 : validDelta d2 = true) :
    (chargingFlag s 1 = true →
        meterOf (simulate_charging_tick d1 d2 s).2 1 = meterOf s 1 + d1 ∧
        meterOf s 1 < meterOf (simulate_charging_tick d1 d2 s).2 1) ∧
    (chargingFlag s 1 = false →
        meterOf (simulate_charging_tick d1 d2 s).2 1 = meterOf s 1) ∧
    (chargingFlag s 2 = true →
        meterOf (simulate_charging_tick d1 d2 s).2 2 = meterOf s 2 + d2 ∧
        meterOf s 2 < meterOf (simulate_charging_tick d1 d2 s).2 2) ∧
    (chargingFlag s 2 = false →
        meterOf (simulate_charging_tick d1 d2 s).2 2 = meterOf s 2) := by
  have hinv := inv_reachable hs
  obtain ⟨c1, c2, hconn⟩ := hinv.conns
  obtain ⟨m1, m2, hmet⟩ := hinv.mets
  have hd1 := validDelta_pos h1
  have hd2 := validDelta_pos h2
  have hstep := simulate_charging_tick_spec hconn hmet d1 d2
  have hcf1 : chargingFlag s 1 = pyTruthy c1.transaction_id := by
    simp [chargingFlag, hconn, List.lookup]
  have hcf2 : chargingFlag s 2 = pyTruthy c2.transaction_id := by
    simp [chargingFlag, hconn, List.lookup]
  have hm1 : meterOf s 1 = m1 := by simp [meterOf, hmet, List.lookup]
  have hm2 : meterOf s 2 = m2 := by simp [meterOf, hmet, List.lookup]
  rw [hstep, hcf1, hcf2, hm1, hm2]
  refine ⟨?_, ?_, ?_, ?_⟩
  · intro t1
    constructor
    · simp [meterOf, List.lookup, t1]
    · simp [meterOf, List.lookup, t1]
      linarith
  · intro t1
    simp [meterOf, List.lookup, t1]
  · intro t2
    constructor
    · simp [meterOf, List.lookup, t2]
    · simp [meterOf, List.lookup, t2]
      linarith
  · intro t2
    simp [meterOf, List.lookup, t2]

/-- C6 witness: one tick on the scenario B state, connector 1 charging with
delta 1/5. -/
theorem C6_tick_meter_updates_witness :
    Reachable stateB ∧ validDelta (mkRat 1 5) = true ∧
    chargingFlag stateB 1 = true ∧
    (meterOf (simulate_charging_tick (mkRat 1 5) (mkRat 1 5) stateB).2 1 =
        meterOf stateB 1 + mkRat 1 5 ∧
     meterOf stateB 1 <
        meterOf (simulate_charging_tick (mkRat 1 5) (mkRat 1 5) stateB).2 1) :=
  ⟨⟨[Op.start "T1" 1 0 "t0"], by decide, rfl⟩, by decide, by decide,
   (C6_tick_meter_updates stateB ⟨[Op.start "T1" 1 0 "t0"], by decide, rfl⟩
     (mkRat 1 5) (mkRat 1 5) (by decide) (by decide)).1 (by decide)⟩

/-- C6 counterexample: the claim as stated says the counter is unchanged
across a tick during which the connector is not in Charging; in the scenario
B state connector 1 has status Occupied — not Charging — yet the tick changes
its counter. -/
theorem C6_not_charging_status_counterexample :
    statusOf stateB 1 = some ConnectorStatus.occupied ∧
    statusOf stateB 1 ≠ some "Charging" ∧
    validDelta (mkRat 1 5) = true ∧
    meterOf (simulate_charging_tick (mkRat 1 5) (mkRat 1 5) stateB).2 1 ≠
      meterOf stateB 1 := by
  refine ⟨by decide, by decide, by decide, ?_⟩
  show (0 : ℚ) + mkRat 1 5 ≠ (0 : ℚ)
  rw [zero_add]
  decide

/-- C10 witness: connector id 3. -/
theorem C10_start_unknown_connector_keyerror_witness :
    (3 : Nat) ≠ 1 ∧ (3 : Nat) ≠ 2 ∧
    on_request_start_transaction "T1" 3 0 "t0" initState =
      (Except.error PyError.keyError, [], initState) :=
  ⟨by decide, by decide,
   (C10_start_unknown_connector_keyerror "T1" 3 0 "t0" (by decide) (by decide)).2⟩

/-- JSON values, the decoded form of frames on the wire (json.loads output
and the Python lists/dicts the CSMS builds as replies). -/
inductive Json
  | null
  | bool (b : Bool)
  | num (q : ℚ)
  | str (s : String)
  | arr (items : List Json)
  | obj (fields : List (String × Json))

/-- Python len(x): defined on lists, dicts and strings, TypeError
otherwise. -/
def pyLen : Json → Except PyError Nat
  | .arr xs => .ok xs.length
  | .obj kvs => .ok kvs.length
  | .str s => .ok s.length
  | _ => .error PyError.typeError

/-- Python x[i] with an int index: list indexing (IndexError out of range),
string indexing (a one character string), dict indexing with an int key
(KeyError, JSON object keys being strings), TypeError otherwise. -/
def pyIndexNat : Json → Nat → Except PyError Json
  | .arr xs, i =>
      match xs.get? i with
      | some v => .ok v
      | none => .error PyError.indexError
  | .str s, i =>
      match s.toList.get? i with
      | some ch => .ok (.str (String.mk [ch]))
      | none => .error PyError.indexError
  | .obj _, _ => .error PyError.keyError
  | _, _ => .error PyError.typeError

/-- Python payload.get(key, default): AttributeError when payload is not a
dict. -/
def pyGet (j : Json) (k : String) (dflt : Json) : Except PyError Json :=
  match j with
  | .obj kvs => .ok ((kvs.lookup k).getD dflt)
  | _ => .error PyError.attributeError

/-- Python x == n for an int literal n: numbers compare by value, booleans
as 0/1, anything else is unequal. -/
def pyEqNum (j : Json) (n : ℚ) : Bool :=
  match j with
  | .num q => q == n
  | .bool b => (if b then (1 : ℚ) else 0) == n
  | _ => false

/-- SimpleCSMS.handle_boot_notification: stores the payload fields (the
payload.get calls can raise AttributeError on a non-dict payload) and
answers [3, message_id, {status Accepted, currentTime, interval 300}]. -/
def handle_boot_notification (message_id : Json) (payload : Json) (now : String) :
    Except PyError Json := do
  let _cs ← pyGet payload "charging_station" (.obj [])
  let _reason ← pyGet payload "reason" (.str "Unknown")
  pure (.arr [.num 3, message_id,
    .obj [("status", .str "Accepted"), ("currentTime", .str now), ("interval", .num 300)]])

/-- SimpleCSMS.handle_status_notification: reads the payload fields and
answers [3, message_id, {}]. -/
def handle_status_notification (message_id : Json) (payload : Json) (now : String) :
    Except PyError Json := do
  let _cid ← pyGet payload "connectorId" (.num 0)
  let _st ← pyGet payload "connectorStatus" (.str "Unknown")
  let _evse ← pyGet payload "evseId" (.num 0)
  let _ts ← pyGet payload "timestamp" (.str now)
  pure (.arr [.num 3, message_id, .obj []])

/-- SimpleCSMS.handle_authorize. -/
def handle_authorize (message_id : Json) : Except PyError Json :=
  .ok (.arr [.num 3, message_id,
    .obj [("idTokenInfo", .obj [("status", .str "Accepted")])]])

/-- SimpleCSMS.handle_transaction_event. -/
def handle_transaction_event (message_id : Json) : Except PyError Json :=
  .ok (.arr [.num 3, message_id,
    .obj [("totalCost", .num 0), ("chargingPriority", .num 0),
          ("idTokenInfo", .obj [("status", .str "Accepted")]),
          ("updatedPersonalMessage", .obj [("format", .str "UTF8"), ("code", .str "OK")])]])

/-- SimpleCSMS.handle_meter_values. -/
def handle_meter_values (message_id : Json) : Except PyError Json :=
  .ok (.arr [.num 3, message_id, .obj []])

/-- SimpleCSMS.handle_heartbeat. -/
def handle_heartbeat (message_id : Json) (now : String) : Except PyError Json :=
  .ok (.arr [.num 3, message_id, .obj [("currentTime", .str now)]])

/-- SimpleCSMS.handle_data_transfer. -/
def handle_data_transfer (message_id : Json) : Except PyError Json :=
  .ok (.arr [.num 3, message_id, .obj [("status", .str "Accepted")]])

/-- SimpleCSMS.handle_call: string-dispatch on the action name; any other
action answers [3, message_id, {errorCode NotSupported}]; an exception in a
handler is caught and answered as [3, message_id, {errorCode
InternalError}]. -/
def handle_call (message_id : Json) (action : Json) (payload : Json) (now : String) : Json :=
  let r : Except PyError Json :=
    match action with
    | .str a =>
        if a == "BootNotification" then handle_boot_notification message_id payload now
        else if a == "StatusNotification" then handle_status_notification message_id payload now
        else if a == "Authorize" then handle_authorize message_id
        else if a == "TransactionEvent" then handle_transaction_event message_id
        else if a == "MeterValues" then handle_meter_values message_id
        else if a == "Heartbeat" then handle_heartbeat message_id now
        else if a == "DataTransfer" then handle_data_transfer message_id
        else .ok (.arr [.num 3, message_id, .obj [("errorCode", .str "NotSupported")]])
    | _ => .ok (.arr [.num 3, message_id, .obj [("errorCode", .str "NotSupported")]])
  match r with
  | .ok v => v
  | .error _ => .arr [.num 3, message_id, .obj [("errorCode", .str "InternalError")]]

/-- SimpleCSMS.handle_message: a non-list or too short message answers
[3, "error", {errorCode FormatViolation}]; a type 2 message dispatches to
handle_call with payload[0] (or {} when absent); any other type id answers
[3, message_id, {errorCode NotSupported}]. -/
def handle_message (data : Json) (now : String) : Json :=
  match data with
  | .arr xs =>
      if xs.length < 3 then
        .arr [.num 3, .str "error", .obj [("errorCode", .str "FormatViolation")]]
      else
        let message_type_id := (xs.get? 0).getD .null
        let message_id := (xs.get? 1).getD .null
        let action := (xs.get? 2).getD .null
        let payload := (xs.get? 3).getD (.obj [])
        if pyEqNum message_type_id 2 then handle_call message_id action payload now
        else .arr [.num 3, message_id, .obj [("errorCode", .str "NotSupported")]]
  | _ => .arr [.num 3, .str "error", .obj [("errorCode", .str "FormatViolation")]]

/-- One inbound websocket frame as received by SimpleCSMS.handle_connection:
either json.loads raised (badJson) or produced a JSON value. -/
inductive RawIn
  | badJson
  | good (data : Json)

/-- The display code of the receive loop, run before handle_message:
message_type = data[2] if len(data) > 2 else "Unknown", and
payload = data[3] if len(data) > 3 else {}.  Its exceptions are caught by
the generic handler of the loop. -/
def displayProbe (data : Json) : Except PyError Unit := do
  let n ← pyLen data
  let _ ← (if 2 < n then pyIndexNat data 2 else pure .null)
  let _ ← (if 3 < n then pyIndexNat data 3 else pure .null)
  pure ()

/-- One iteration of the receive loop of SimpleCSMS.handle_connection: a JSON
decode failure answers [3, "error", {errorCode FormatViolation}], any other
exception answers [3, "error", {errorCode InternalError}], otherwise the
handle_message reply is sent.  No branch closes the connection. -/
def processMessage (raw : RawIn) (now : String) : Json :=
  match raw with
  | .badJson => .arr [.num 3, .str "error", .obj [("errorCode", .str "FormatViolation")]]
  | .good data =>
      match displayProbe data with
      | .error _ => .arr [.num 3, .str "error", .obj [("errorCode", .str "InternalError")]]
      | .ok _ => handle_message data now

/-- The whole receive loop: every inbound frame is answered and the loop
continues to the next frame; the connection is torn down only when the
transport itself closes. -/
def csmsSession (msgs : List RawIn) (now : String) : List Json :=
  msgs.map (fun raw => processMessage raw now)

/-- What one await of asyncio.wait_for(ws.recv(), timeout=10.0) produced:
a frame, a TimeoutError, or the connection closing. -/
inductive RecvEvent
  | frame (response : Json)
  | timedOut
  | closed

/-- The exceptions send_message_with_retry re-raises to its caller. -/
inductive SendError
  | timeout
  | connectionClosed

/-- What one call of send_message_with_retry returns: a response frame, or
None when the for-loop runs zero attempts. -/
inductive SendOutcome
  | response (r : Json)
  | fellThrough

/-- simple_charge_point.send_message_with_retry: per attempt, send the frame
and await the next recv event; a frame is returned immediately — whatever its
identifier, no correlation is performed; a TimeoutError on the last attempt
(and the end of the schedule, where recv never returns in time) re-raises;
ConnectionClosedError re-raises at once; otherwise sleep and retry.  The
schedule is the sequence of recv results the transport serves across all
attempts, and the unconsumed remainder is returned for subsequent calls on
the same connection. -/
def send_message_with_retry (message : Json) : Nat → List RecvEvent →
    Except SendError SendOutcome × List RecvEvent
  | 0, sched => (.ok SendOutcome.fellThrough, sched)
  | n + 1, sched =>
      match sched with
      | [] =>
          if n == 0 then (.error SendError.timeout, [])
          else send_message_with_retry message n []
      | e :: rest =>
          match e with
          | .frame r => (.ok (SendOutcome.response r), rest)
          | .closed => (.error SendError.connectionClosed, rest)
          | .timedOut =>
              if n == 0 then (.error SendError.timeout, rest)
              else send_message_with_retry message n rest

/-- charging_simulator.ChargingStationSimulator.transaction_event payload:
the seqNo field is the literal 1 on every event; transactionId is
self.transaction_id or the tx_{int(time.time())} fallback (Python or on a
falsy value). -/
def pyOrStr (v : Option String) (fallback : String) : String :=
  match v with
  | some t => if t == "" then fallback else t
  | none => fallback

def transaction_event_payload (event_type trigger_reason now : String)
    (transaction_id : Option String) (fallback_now : Nat)
    (charging_state : String) : Json :=
  .obj [("eventType", .str event_type),
        ("timestamp", .str now),
        ("triggerReason", .str trigger_reason),
        ("seqNo", .num 1),
        ("transactionInfo", .obj
          [("transactionId", .str (pyOrStr transaction_id ("tx_" ++ toString fallback_now))),
           ("chargingState", .str charging_state)])]

/-- charge_point.ChargePointEmulator._send_transaction_event request fields:
event type, timestamp, transaction info, evse and meter value — it passes no
seq_no at all. -/
def transaction_event_request (event_type : TxEventType) (now : String)
    (transaction_id : String) (connector_id : Nat) (meter : ℚ) : Json :=
  .obj [("eventType", .str (match event_type with
          | TxEventType.started => "Started"
          | TxEventType.updated => "Updated"
          | TxEventType.ended => "Ended")),
        ("timestamp", .str now),
        ("transactionInfo", .obj
          [("transactionId", .str transaction_id),
           ("chargingState", .str (if event_type = TxEventType.started then "Charging"
                                   else "EVConnected")),
           ("timeSpentCharging", .num 0),
           ("stoppedReason", if event_type = TxEventType.ended then .str "Remote" else .null)]),
        ("evse", .num connector_id),
        ("meterValue", .arr [.obj
          [("timestamp", .str now),
           ("sampledValue", .arr [.obj
             [("value", .num meter),
              ("measurand", .str "Energy.Active.Import.Register"),
              ("unitOfMeasure", .obj [("unit", .str "kWh")])]])]])]

/-- The seqNo field of a TransactionEvent payload. -/
def seqNoOf (j : Json) : Option Json :=
  match j with
  | .obj kvs => kvs.lookup "seqNo"
  | _ => none

/-- The transactionId field inside the transactionInfo of a TransactionEvent
payload. -/
def txIdOfPayload (j : Json) : Option Json :=
  match j with
  | .obj kvs =>
      match kvs.lookup "transactionInfo" with
      | some (.obj kvs2) => kvs2.lookup "transactionId"
      | _ => none
  | _ => none

/-- Modelled from the spec: the Error frame shape [4, "-1", "FormatViolation",
...] that section 4.1 requires on a decode failure whose identifier cannot be
recovered. -/
def specFormatViolationErrorFrame : Json → Bool
  | .arr (.num t :: .str i :: .str c :: _) =>
      t == 4 && i == "-1" && c == "FormatViolation"
  | _ => false

/-- Modelled from the spec: a type-4 Error frame [4, id, "NotImplemented",
...] echoing the call identifier, required for unregistered actions. -/
def specNotImplementedErrorFrame (message_id : String) : Json → Bool
  | .arr (.num t :: .str i :: .str c :: _) =>
      t == 4 && i == message_id && c == "NotImplemented"
  | _ => false

/-- C5 (amended): a frame that fails to decode does not close the connection
and is answered with the frame [3, "error", {errorCode FormatViolation}] —
a Result-shaped type 3 frame with the fixed id string "error", not a type 4
Error frame — and a subsequent well formed Heartbeat call on the same
connection is still answered normally.  The same FormatViolation frame
answers a decoded frame that is not an array (here an empty JSON object) or
an array that is too short; a scalar frame trips the display code first and
is answered with the InternalError variant of the same shape. -/
theorem C5_decode_failure_recovery (now mid : String) :
    csmsSession [RawIn.badJson,
        RawIn.good (.arr [.num 2, .str mid, .str "Heartbeat", .obj []])] now =
      [.arr [.num 3, .str "error", .obj [("errorCode", .str "FormatViolation")]],
       .arr [.num 3, .str mid, .obj [("currentTime", .str now)]]] ∧
    processMessage (RawIn.good (.obj [])) now =
      .arr [.num 3, .str "error", .obj [("errorCode", .str "FormatViolation")]] ∧
    processMessage (RawIn.good (.arr [.num 2])) now =
      .arr [.num 3, .str "error", .obj [("errorCode", .str "FormatViolation")]] ∧
    processMessage (RawIn.good (.num 7)) now =
      .arr [.num 3, .str "error", .obj [("errorCode", .str "InternalError")]] :=
  ⟨rfl, rfl, rfl, rfl⟩

/-- C5 counterexample: the claim as stated says the reply to an undecodable
frame is an Error frame of the shape [4, "-1", "FormatViolation", ...]; the
actual reply is [3, "error", {errorCode FormatViolation}], which does not
match that shape. -/
theorem C5_error_frame_shape_counterexample :
    processMessage RawIn.badJson "t0" =
      .arr [.num 3, .str "error", .obj [("errorCode", .str "FormatViolation")]] ∧
    specFormatViolationErrorFrame (processMessage RawIn.badJson "t0") = false :=
  ⟨rfl, rfl⟩

/-- C8 (amended): a Call whose action name is none of the seven handled
actions is answered with [3, message_id, {errorCode NotSupported}] — a
Result-shaped type 3 frame carrying the code NotSupported, echoing the call
identifier, not a type 4 Error with code NotImplemented. -/
theorem C8_unknown_action_notsupported (message_id payload : Json) (now a : String)
    (h1 : a ≠ "BootNotification") (h2 : a ≠ "StatusNotification")
    (h3 : a ≠ "Authorize") (h4 : a ≠ "TransactionEvent")
    (h5 : a ≠ "MeterValues") (h6 : a ≠ "Heartbeat") (h7 : a ≠ "DataTransfer") :
    handle_call message_id (.str a) payload now =
      .arr [.num 3, message_id, .obj [("errorCode", .str "NotSupported")]] := by
  unfold handle_call
  dsimp only
  rw [beq_false_of_ne h1, beq_false_of_ne h2, beq_false_of_ne h3, beq_false_of_ne h4,
      beq_false_of_ne h5, beq_false_of_ne h6, beq_false_of_ne h7]
  rfl

/-- C8 witness: the action UnknownAction. -/
theorem C8_unknown_action_notsupported_witness :
    "UnknownAction" ≠ "BootNotification" ∧ "UnknownAction" ≠ "StatusNotification" ∧
    "UnknownAction" ≠ "Authorize" ∧ "UnknownAction" ≠ "TransactionEvent" ∧
    "UnknownAction" ≠ "MeterValues" ∧ "UnknownAction" ≠ "Heartbeat" ∧
    "UnknownAction" ≠ "DataTransfer" ∧
    handle_call (.str "m1") (.str "UnknownAction") (.obj []) "t0" =
      .arr [.num 3, .str "m1", .obj [("errorCode", .str "NotSupported")]] :=
  ⟨by decide, by decide, by decide, by decide, by decide, by decide, by decide,
   C8_unknown_action_notsupported (.str "m1") (.obj []) "t0" "UnknownAction"
     (by decide) (by decide) (by decide) (by decide) (by decide) (by decide) (by decide)⟩

/-- C8 counterexample: the claim as stated requires a type-4 Error frame with
code NotImplemented echoing the identifier; the actual reply to an unknown
action is [3, "m1", {errorCode NotSupported}], which does not match that
shape. -/
theorem C8_notimplemented_shape_counterexample :
    handle_call (.str "m1") (.str "UnknownAction") (.obj []) "t0" =
      .arr [.num 3, .str "m1", .obj [("errorCode", .str "NotSupported")]] ∧
    specNotImplementedErrorFrame "m1"
        (handle_call (.str "m1") (.str "UnknownAction") (.obj []) "t0") = false :=
  ⟨rfl, rfl⟩

theorem send_retry_all_timeouts (message : Json) (k : Nat) (rest : List RecvEvent) :
    send_message_with_retry message (k + 1) (List.replicate (k + 1) RecvEvent.timedOut ++ rest) =
      (.error SendError.timeout, rest) := by
  induction k with
  | zero => rfl
  | succ k2 ih =>
      show send_message_with_retry message (k2 + 2)
          (RecvEvent.timedOut :: (List.replicate (k2 + 1) RecvEvent.timedOut ++ rest)) = _
      unfold send_message_with_retry
      simp only [Nat.succ_ne_zero, if_neg, Nat.add_eq, beq_iff_eq, reduceIte]
      exact ih

/-- C3 (amended): each invocation of send_message_with_retry yields exactly
one outcome, but the code performs no identifier correlation: the next frame
the transport serves is returned as the response, whatever identifier it
carries, and after max_retries straight timeouts the invocation raises
Timeout, leaving any late frame in the connection for the next invocation
instead of dropping it. -/
theorem C3_retry_no_correlation (message : Json) (n : Nat) (hn : 0 < n)
    (j : Json) (rest : List RecvEvent) :
    send_message_with_retry message n (RecvEvent.frame j :: rest) =
        (.ok (SendOutcome.response j), rest) ∧
    send_message_with_retry message n (List.replicate n RecvEvent.timedOut ++ rest) =
        (.error SendError.timeout, rest) := by
  cases n with
  | zero => exact absurd hn (by decide)
  | succ k => exact ⟨rfl, send_retry_all_timeouts message k rest⟩

/-- C3 witness: three attempts, a response frame first in the schedule, and a
schedule of three straight timeouts followed by a late frame. -/
theorem C3_retry_no_correlation_witness :
    (0 : Nat) < 3 ∧
    send_message_with_retry (.arr [.num 2, .str "idB", .str "MeterValues", .obj []]) 3
        (RecvEvent.frame (.arr [.num 3, .str "idA", .obj []]) :: []) =
      (.ok (SendOutcome.response (.arr [.num 3, .str "idA", .obj []])), []) :=
  ⟨by decide,
   (C3_retry_no_correlation (.arr [.num 2, .str "idB", .str "MeterValues", .obj []]) 3
     (by decide) (.arr [.num 3, .str "idA", .obj []]) []).1⟩

/-- C3 counterexample: the call with identifier idA times out on all three
attempts and raises Timeout; its late response then sits in the connection
and is delivered as the outcome of the next call, whose identifier is idB —
the claim says a response arriving after its identifier timed out is dropped
and never delivered to any caller. -/
theorem C3_late_response_delivered_counterexample :
    send_message_with_retry (.arr [.num 2, .str "idA", .str "Heartbeat", .obj []]) 3
        [RecvEvent.timedOut, RecvEvent.timedOut, RecvEvent.timedOut,
         RecvEvent.frame (.arr [.num 3, .str "idA", .obj []])] =
      (.error SendError.timeout, [RecvEvent.frame (.arr [.num 3, .str "idA", .obj []])]) ∧
    send_message_with_retry (.arr [.num 2, .str "idB", .str "MeterValues", .obj []]) 3
        [RecvEvent.frame (.arr [.num 3, .str "idA", .obj []])] =
      (.ok (SendOutcome.response (.arr [.num 3, .str "idA", .obj []])), []) ∧
    "idA" ≠ "idB" :=
  ⟨rfl, rfl, by decide⟩

/-- C7 (amended): every TransactionEvent payload built by
ChargingStationSimulator.transaction_event carries the constant sequence
number 1, whatever the event type or transaction, and the TransactionEvent
request built by ChargePointEmulator._send_transaction_event carries no seqNo
field at all; no per-transaction counter exists. -/
theorem C7_seqno_constant_one (event_type trigger_reason now : String)
    (transaction_id : Option String) (fallback_now : Nat) (charging_state : String)
    (event_type2 : TxEventType) (now2 tid2 : String) (cid2 : Nat) (meter2 : ℚ) :
    seqNoOf (transaction_event_payload event_type trigger_reason now transaction_id
        fallback_now charging_state) = some (.num 1) ∧
    seqNoOf (transaction_event_request event_type2 now2 tid2 cid2 meter2) = none :=
  ⟨rfl, rfl⟩

/-- C7 counterexample: the Started and the Ended TransactionEvent of the very
same transaction tx_1 (as emitted by one simulated charging session) carry
the same sequence number 1, where the claim requires strictly increasing
sequence numbers and no two events of one transaction sharing one. -/
theorem C7_seqno_counterexample :
    txIdOfPayload (transaction_event_payload "Started" "Authorized" "t0"
        (some "tx_1") 0 "Charging") = some (.str "tx_1") ∧
    txIdOfPayload (transaction_event_payload "Ended" "EVDisconnected" "t9"
        (some "tx_1") 0 "Finishing") = some (.str "tx_1") ∧
    seqNoOf (transaction_event_payload "Started" "Authorized" "t0"
        (some "tx_1") 0 "Charging") = some (.num 1) ∧
    seqNoOf (transaction_event_payload "Ended" "EVDisconnected" "t9"
        (some "tx_1") 0 "Finishing") = some (.num 1) :=
  ⟨rfl, rfl, rfl, rfl⟩

end OcppGw
